import Mathlib

/-!
Verification of the chaosexp-tool core modules against their
natural-language specification.

The development shallowly embeds the Python modules
`src/chaosmonkey/core/metrics.py`, `src/chaosmonkey/core/nomad.py` and
`src/chaosmonkey/core/orchestrator.py`:

* Python dictionaries with a fixed key vocabulary become Lean structures
  whose optional keys are `Option` fields; a key that the code always
  reads through `.get(k, 0)` is modelled as a plain numeric field whose
  absence is the value `0`.
* Numeric metric values (bytes, percentages, tick counts) become `ℚ`.
* The external Nomad API is an explicit environment of fallible calls
  (`Except String`), so a Python `try/except` around API calls becomes a
  `match` on the call result.
* The collector's mutable `metrics_history` is threaded explicitly:
  every collecting function takes the history and returns the new one.
* `time.sleep` calls are counted: the sampler returns the number of
  sleeps it would perform.
-/

namespace ChaosMonkey

/-! ## Data model for metric snapshots (metrics.py) -/

/-- The `cpu` sub-dictionary of an allocation snapshot
(`collect_nomad_allocation_metrics`, metrics.py lines 70-77).  A node
snapshot only sets `percent`; the remaining keys are absent and read
back as `0`, which is how `0`-defaulted fields model them. -/
structure CpuStats where
  percent : ℚ := 0
  system_mode : ℚ := 0
  user_mode : ℚ := 0
  total_ticks : ℚ := 0
  throttled_periods : ℚ := 0
  throttled_time : ℚ := 0
deriving DecidableEq

/-- The `memory` sub-dictionary of a snapshot (metrics.py lines 78-86). -/
structure MemoryStats where
  rss : ℚ := 0
  cache : ℚ := 0
  swap : ℚ := 0
  usage : ℚ := 0
  max_usage : ℚ := 0
  kernel_usage : ℚ := 0
  kernel_max_usage : ℚ := 0
deriving DecidableEq

/-- The `disk` sub-dictionary of a snapshot (metrics.py lines 87-94 and
119-126). -/
structure DiskStats where
  read_bytes : ℚ := 0
  write_bytes : ℚ := 0
  read_ops : ℚ := 0
  write_ops : ℚ := 0
  total_bytes : ℚ := 0
  total_ops : ℚ := 0
deriving DecidableEq

/-- Per-task entry of the `tasks` sub-dictionary (metrics.py lines
136-140). -/
structure TaskStat where
  cpu_percent : ℚ := 0
  memory_rss : ℚ := 0
  memory_usage : ℚ := 0
deriving DecidableEq

/-- The `resources` / `reserved` sub-dictionaries of a node snapshot
(metrics.py lines 299-308). -/
structure ResourceCaps where
  cpu_mhz : ℚ := 0
  memory_mb : ℚ := 0
  disk_mb : ℚ := 0
deriving DecidableEq

/-- A metric snapshot dictionary without the job-level nesting: the
union of the keys produced by `collect_nomad_allocation_metrics`,
`collect_node_metrics` and their error paths.  An absent key is
`none`. -/
structure AllocSnapshot where
  timestamp : Option String := none
  label : Option String := none
  allocation_id : Option String := none
  allocation_name : Option String := none
  job_id : Option String := none
  task_group : Option String := none
  client_status : Option String := none
  desired_status : Option String := none
  node_id : Option String := none
  node_name : Option String := none
  status : Option String := none
  drain : Option Bool := none
  resources : Option ResourceCaps := none
  reserved : Option ResourceCaps := none
  allocation_count : Option Nat := none
  running_allocations : Option Nat := none
  cpu : Option CpuStats := none
  memory : Option MemoryStats := none
  disk : Option DiskStats := none
  tasks : Option (List (String × TaskStat)) := none
  error : Option String := none
deriving DecidableEq

/-- The `aggregate` sub-dictionary of a job snapshot (metrics.py lines
210-215). -/
structure Aggregate where
  total_cpu_percent : ℚ := 0
  average_cpu_percent : ℚ := 0
  total_memory_bytes : ℚ := 0
  running_allocations_agg : Nat := 0
deriving DecidableEq

/-- A full snapshot dictionary: an `AllocSnapshot` possibly extended
with the job-level keys `allocations` and `aggregate`
(`collect_nomad_job_metrics`, metrics.py lines 179-217). -/
structure Snapshot extends AllocSnapshot where
  allocations : Option (List AllocSnapshot) := none
  aggregate : Option Aggregate := none
deriving DecidableEq

/-- Lift an allocation/node snapshot to a full snapshot dictionary. -/
def AllocSnapshot.toSnap (a : AllocSnapshot) : Snapshot :=
  { toAllocSnapshot := a }

/-! ## compare_metrics (metrics.py lines 389-506) -/

/-- Python `max(xs, default=d)`. -/
def pyMax (xs : List ℚ) (dflt : ℚ) : ℚ :=
  match xs with
  | [] => dflt
  | x :: rest => rest.foldl max x

/-- The `analysis["cpu"]` dictionary (metrics.py lines 424-431). -/
structure CpuAnalysis where
  before_percent : ℚ
  peak_during_percent : ℚ
  after_percent : ℚ
  change_during : ℚ
  recovery : ℚ
  recovered : Bool
deriving DecidableEq

/-- The `analysis["memory"]` dictionary (metrics.py lines 444-451). -/
structure MemoryAnalysis where
  before_bytes : ℚ
  peak_during_bytes : ℚ
  after_bytes : ℚ
  change_during_bytes : ℚ
  recovery_bytes : ℚ
  recovered : Bool
deriving DecidableEq

/-- The `analysis["status"]` dictionary (metrics.py lines 455-459). -/
structure StatusAnalysis where
  before : Option String
  after : Option String
  stable : Bool
deriving DecidableEq

/-- The `analysis["disk"]` dictionary (metrics.py lines 487-504).  Note:
no `recovered` key. -/
structure DiskAnalysis where
  before_read_bytes : ℚ
  before_write_bytes : ℚ
  before_total_bytes : ℚ
  peak_read_bytes : ℚ
  peak_write_bytes : ℚ
  peak_total_bytes : ℚ
  after_read_bytes : ℚ
  after_write_bytes : ℚ
  after_total_bytes : ℚ
  read_increase : ℚ
  write_increase : ℚ
  total_increase : ℚ
  read_ops_before : ℚ
  write_ops_before : ℚ
  read_ops_after : ℚ
  write_ops_after : ℚ
deriving DecidableEq

/-- The `analysis` dictionary of a comparison. -/
structure Analysis where
  cpu : Option CpuAnalysis := none
  memory : Option MemoryAnalysis := none
  status : Option StatusAnalysis := none
  disk : Option DiskAnalysis := none
deriving DecidableEq

/-- The comparison report returned by `compare_metrics`. -/
structure Comparison where
  before : Snapshot
  during : List Snapshot
  after : Snapshot
  analysis : Analysis
deriving DecidableEq

/-- The `MetricsCollector.compare_metrics` (metrics.py lines 389-506).
The method reads no collector state, so its embedding is a pure
function of the three inputs. -/
def compare_metrics (before : Snapshot) (during : List Snapshot)
    (after : Snapshot) : Comparison :=
  let cpuA : Option CpuAnalysis :=
    match before.cpu, after.cpu with
    | some bc, some ac =>
      let before_cpu := bc.percent
      let after_cpu := ac.percent
      let peak_cpu := pyMax
        (((during.filter (fun s => s.cpu.isSome)).map
          (fun s => (s.cpu.getD {}).percent))) 0
      some {
        before_percent := before_cpu
        peak_during_percent := peak_cpu
        after_percent := after_cpu
        change_during := peak_cpu - before_cpu
        recovery := before_cpu - after_cpu
        recovered := decide (|after_cpu - before_cpu| < 5) }
    | _, _ => none
  let memA : Option MemoryAnalysis :=
    match before.memory, after.memory with
    | some bm, some am =>
      let before_mem := bm.usage
      let after_mem := am.usage
      let peak_mem := pyMax
        (((during.filter (fun s => s.memory.isSome)).map
          (fun s => (s.memory.getD {}).usage))) 0
      some {
        before_bytes := before_mem
        peak_during_bytes := peak_mem
        after_bytes := after_mem
        change_during_bytes := peak_mem - before_mem
        recovery_bytes := before_mem - after_mem
        recovered := decide (|after_mem - before_mem| < before_mem * (1/10)) }
    | _, _ => none
  let statusA : Option StatusAnalysis :=
    match before.client_status, after.client_status with
    | some _, some _ =>
      some {
        before := before.client_status
        after := after.client_status
        stable := decide (before.client_status = after.client_status) }
    | _, _ => none
  let diskA : Option DiskAnalysis :=
    match before.disk, after.disk with
    | some bd, some ad =>
      let before_read := bd.read_bytes
      let before_write := bd.write_bytes
      let before_total := bd.total_bytes
      let peak_read := pyMax
        (((during.filter (fun s => s.disk.isSome)).map
          (fun s => (s.disk.getD {}).read_bytes))) before_read
      let peak_write := pyMax
        (((during.filter (fun s => s.disk.isSome)).map
          (fun s => (s.disk.getD {}).write_bytes))) before_write
      let peak_total := pyMax
        (((during.filter (fun s => s.disk.isSome)).map
          (fun s => (s.disk.getD {}).total_bytes))) before_total
      some {
        before_read_bytes := before_read
        before_write_bytes := before_write
        before_total_bytes := before_total
        peak_read_bytes := peak_read
        peak_write_bytes := peak_write
        peak_total_bytes := peak_total
        after_read_bytes := ad.read_bytes
        after_write_bytes := ad.write_bytes
        after_total_bytes := ad.total_bytes
        read_increase := peak_read - before_read
        write_increase := peak_write - before_write
        total_increase := peak_total - before_total
        read_ops_before := bd.read_ops
        write_ops_before := bd.write_ops
        read_ops_after := ad.read_ops
        write_ops_after := ad.write_ops }
    | _, _ => none
  { before := before
    during := during
    after := after
    analysis :=
      { cpu := cpuA, memory := memA, status := statusA, disk := diskA } }

/-! ## The Nomad API environment

The collectors call `self.nomad_client`.  Each call either returns a
raw payload or raises, which the collectors catch.  The payload
structures below carry exactly the keys the collectors read; a key
read by `.get(k, 0)` is a `0`-defaulted field, a key read by
`.get(k, "unknown")` or `.get(k)` is an `Option`. -/

/-- The `ReadStats` / `WriteStats` of a device entry (metrics.py lines
111-117). -/
structure RawRW where
  bytes_transferred : ℚ := 0
  ops : ℚ := 0
deriving DecidableEq

/-- A `DeviceStats` entry.  The allocation collector reads
`ReadStats`/`WriteStats` (lines 108-117); the node collector reads
`ReadBytes`/`WriteBytes` (lines 281-285). -/
structure RawDevice where
  read_stats : RawRW := {}
  write_stats : RawRW := {}
  read_bytes : ℚ := 0
  write_bytes : ℚ := 0
deriving DecidableEq

/-- Per-task `ResourceUsage` payload (metrics.py lines 104-117 and
131-140). -/
structure RawTask where
  cpu_percent : ℚ := 0
  memory_rss : ℚ := 0
  memory_usage : ℚ := 0
  device_stats : List RawDevice := []
deriving DecidableEq

/-- The `allocation.get(...)` payload (metrics.py lines 65-69). -/
structure RawAlloc where
  name : Option String := none
  job_id : Option String := none
  task_group : Option String := none
  client_status : Option String := none
  desired_status : Option String := none
deriving DecidableEq

/-- The `get_allocation_stats` payload: `ResourceUsage.CpuStats`,
`ResourceUsage.MemoryStats` and the optional `Tasks` map. -/
structure RawStats where
  cpu_percent : ℚ := 0
  cpu_system_mode : ℚ := 0
  cpu_user_mode : ℚ := 0
  cpu_total_ticks : ℚ := 0
  cpu_throttled_periods : ℚ := 0
  cpu_throttled_time : ℚ := 0
  mem_rss : ℚ := 0
  mem_cache : ℚ := 0
  mem_swap : ℚ := 0
  mem_usage : ℚ := 0
  mem_max_usage : ℚ := 0
  mem_kernel_usage : ℚ := 0
  mem_kernel_max_usage : ℚ := 0
  tasks : Option (List (String × RawTask)) := none
deriving DecidableEq

/-- An entry of an allocation listing (`job.get_allocations`,
`node.get_allocations`). -/
structure RawAllocEntry where
  id : Option String := none
  client_status : Option String := none
deriving DecidableEq

/-- The `node.get_node` payload (metrics.py lines 247-308). -/
structure RawNode where
  name : Option String := none
  status : Option String := none
  drain : Bool := false
  res_cpu : ℚ := 0
  res_memory_mb : ℚ := 0
  res_disk_mb : ℚ := 0
  rsv_cpu : ℚ := 0
  rsv_memory_mb : ℚ := 0
  rsv_disk_mb : ℚ := 0
deriving DecidableEq

/-- The Nomad client as an environment of fallible calls, plus the
wall clock read by `datetime.utcnow()`.  `Except.error` models a
raised exception. -/
structure NomadEnv where
  now : String := ""
  get_allocation : String → Except String RawAlloc :=
    fun _ => Except.error "unavailable"
  get_allocation_stats : String → Except String RawStats :=
    fun _ => Except.error "unavailable"
  get_job_allocations : String → Except String (List RawAllocEntry) :=
    fun _ => Except.error "unavailable"
  get_node : String → Except String RawNode :=
    fun _ => Except.error "unavailable"
  get_node_allocations : String → Except String (List RawAllocEntry) :=
    fun _ => Except.error "unavailable"

/-! ## collect_nomad_allocation_metrics (metrics.py lines 31-155) -/

/-- Disk aggregation over the `Tasks` map (metrics.py lines 98-126). -/
def aggregateTaskDisk (ts : List (String × RawTask)) : DiskStats :=
  let folded := ts.foldl
    (fun (acc : ℚ × ℚ × ℚ × ℚ) t =>
      t.2.device_stats.foldl
        (fun (a : ℚ × ℚ × ℚ × ℚ) d =>
          (a.1 + d.read_stats.bytes_transferred,
           a.2.1 + d.write_stats.bytes_transferred,
           a.2.2.1 + d.read_stats.ops,
           a.2.2.2 + d.write_stats.ops)) acc)
    (0, 0, 0, 0)
  { read_bytes := folded.1
    write_bytes := folded.2.1
    read_ops := folded.2.2.1
    write_ops := folded.2.2.2
    total_bytes := folded.1 + folded.2.1
    total_ops := folded.2.2.1 + folded.2.2.2 }

/-- Per-task `tasks` sub-dictionary (metrics.py lines 129-142). -/
def taskStatsOf (ts : List (String × RawTask)) : List (String × TaskStat) :=
  ts.map (fun t =>
    (t.1, { cpu_percent := t.2.cpu_percent,
            memory_rss := t.2.memory_rss,
            memory_usage := t.2.memory_usage }))

/-- The `MetricsCollector.collect_nomad_allocation_metrics` (metrics.py
lines 31-155).  Returns the snapshot and the updated history.  A `none`
client yields the bare `error` dictionary without touching history. -/
def collect_nomad_allocation_metrics (client : Option NomadEnv)
    (hist : List Snapshot) (allocation_id lbl : String) :
    AllocSnapshot × List Snapshot :=
  match client with
  | none => ({ error := some "Nomad client not available" }, hist)
  | some env =>
    let errSnap : String → AllocSnapshot × List Snapshot := fun e =>
      let d : AllocSnapshot :=
        { timestamp := some env.now
          label := some lbl
          allocation_id := some allocation_id
          error := some e }
      (d, hist ++ [d.toSnap])
    match env.get_allocation allocation_id with
    | Except.error e => errSnap e
    | Except.ok alloc =>
      match env.get_allocation_stats allocation_id with
      | Except.error e => errSnap e
      | Except.ok stats =>
        let zeroDisk : DiskStats := {}
        let metrics : AllocSnapshot :=
          { timestamp := some env.now
            label := some lbl
            allocation_id := some allocation_id
            allocation_name := some (alloc.name.getD "unknown")
            job_id := some (alloc.job_id.getD "unknown")
            task_group := some (alloc.task_group.getD "unknown")
            client_status := some (alloc.client_status.getD "unknown")
            desired_status := some (alloc.desired_status.getD "unknown")
            cpu := some
              { percent := stats.cpu_percent
                system_mode := stats.cpu_system_mode
                user_mode := stats.cpu_user_mode
                total_ticks := stats.cpu_total_ticks
                throttled_periods := stats.cpu_throttled_periods
                throttled_time := stats.cpu_throttled_time }
            memory := some
              { rss := stats.mem_rss
                cache := stats.mem_cache
                swap := stats.mem_swap
                usage := stats.mem_usage
                max_usage := stats.mem_max_usage
                kernel_usage := stats.mem_kernel_usage
                kernel_max_usage := stats.mem_kernel_max_usage }
            disk := some (match stats.tasks with
              | none => zeroDisk
              | some ts => aggregateTaskDisk ts)
            tasks := stats.tasks.map taskStatsOf }
        (metrics, hist ++ [metrics.toSnap])

/-! ## collect_nomad_job_metrics (metrics.py lines 157-225) -/

/-- Python truthiness of an optional string (`if alloc_id:`). -/
def pyTruthy (s : Option String) : Bool :=
  match s with
  | none => false
  | some v => v ≠ ""

/-- Python `str.lower()`, character-wise. -/
def pyLower (s : String) : String :=
  String.mk (s.data.map Char.toLower)

/-- Python `c in s` for a single-character needle. -/
def pyHasChar (s : String) (c : Char) : Bool :=
  s.data.contains c

/-- Body of the per-allocation loop of `collect_nomad_job_metrics`
(metrics.py lines 188-195): allocations with a truthy `ID` are
collected (appending to history); the rest are skipped. -/
def jobCollectStep (env : NomadEnv) (lbl : String)
    (acc : List AllocSnapshot × List Snapshot) (a : RawAllocEntry) :
    List AllocSnapshot × List Snapshot :=
  if pyTruthy a.id then
    let r := collect_nomad_allocation_metrics (some env) acc.2
      (a.id.getD "") lbl
    (acc.1 ++ [r.1], r.2)
  else acc

/-- The `MetricsCollector.collect_nomad_job_metrics` (metrics.py lines
157-225).  Per-allocation snapshots are collected through
`collect_nomad_allocation_metrics` (which appends each to history);
the job-level dictionary itself is returned without being appended. -/
def collect_nomad_job_metrics (client : Option NomadEnv)
    (hist : List Snapshot) (job_id lbl : String) :
    Snapshot × List Snapshot :=
  match client with
  | none => ({ error := some "Nomad client not available" }, hist)
  | some env =>
    match env.get_job_allocations job_id with
    | Except.error e =>
      ({ timestamp := some env.now
         label := some lbl
         job_id := some job_id
         error := some e }, hist)
    | Except.ok allocs =>
      let collected := allocs.foldl (jobCollectStep env lbl) ([], hist)
      let total_cpu := collected.1.foldl
        (fun t m => if m.cpu.isSome then t + (m.cpu.getD {}).percent else t) 0
      let total_memory := collected.1.foldl
        (fun t m => if m.memory.isSome then t + (m.memory.getD {}).usage else t) 0
      let running_count := (collected.1.filter
        (fun m => m.client_status = some "running")).length
      ({ timestamp := some env.now
         label := some lbl
         job_id := some job_id
         allocation_count := some allocs.length
         allocations := some collected.1
         aggregate := some
           { total_cpu_percent := total_cpu
             average_cpu_percent :=
               if allocs.length ≠ 0 then total_cpu / allocs.length else 0
             total_memory_bytes := total_memory
             running_allocations_agg := running_count } }, collected.2)

/-! ## collect_node_metrics (metrics.py lines 227-337) -/

/-- Accumulator of the per-allocation aggregation loop in
`collect_node_metrics` (metrics.py lines 256-290): total cpu percent,
total memory RSS, total disk read, total disk write, running count. -/
structure NodeAcc where
  cpu : ℚ := 0
  mem : ℚ := 0
  dread : ℚ := 0
  dwrite : ℚ := 0
  running : Nat := 0
deriving DecidableEq

/-- One iteration of that loop: only allocations whose `ClientStatus`
is exactly `"running"` are polled; a failing (or id-less) stats call
is skipped by the inner `except: pass`. -/
def nodeAccStep (env : NomadEnv) (acc : NodeAcc) (a : RawAllocEntry) :
    NodeAcc :=
  if a.client_status = some "running" then
    match a.id with
    | none => acc
    | some aid =>
      match env.get_allocation_stats aid with
      | Except.error _ => acc
      | Except.ok stats =>
        let devs := (stats.tasks.getD []).foldl
          (fun (p : ℚ × ℚ) t =>
            t.2.device_stats.foldl
              (fun (q : ℚ × ℚ) d => (q.1 + d.read_bytes, q.2 + d.write_bytes))
              p)
          (0, 0)
        { cpu := acc.cpu + stats.cpu_percent
          mem := acc.mem + stats.mem_rss
          dread := acc.dread + devs.1
          dwrite := acc.dwrite + devs.2
          running := acc.running + 1 }
  else acc

/-- The `MetricsCollector.collect_node_metrics` (metrics.py lines
227-337).  Success appends the node snapshot to history; the error
path only returns the error dictionary. -/
def collect_node_metrics (client : Option NomadEnv)
    (hist : List Snapshot) (node_id lbl : String) :
    AllocSnapshot × List Snapshot :=
  match client with
  | none => ({ error := some "Nomad client not available" }, hist)
  | some env =>
    let errSnap : String → AllocSnapshot × List Snapshot := fun e =>
      ({ timestamp := some env.now
         label := some lbl
         node_id := some node_id
         error := some e }, hist)
    match env.get_node node_id with
    | Except.error e => errSnap e
    | Except.ok node =>
      match env.get_node_allocations node_id with
      | Except.error e => errSnap e
      | Except.ok allocs =>
        let acc := allocs.foldl (nodeAccStep env) {}
        let metrics : AllocSnapshot :=
          { timestamp := some env.now
            label := some lbl
            node_id := some node_id
            node_name := some (node.name.getD "unknown")
            status := some (node.status.getD "unknown")
            drain := some node.drain
            resources := some
              { cpu_mhz := node.res_cpu
                memory_mb := node.res_memory_mb
                disk_mb := node.res_disk_mb }
            reserved := some
              { cpu_mhz := node.rsv_cpu
                memory_mb := node.rsv_memory_mb
                disk_mb := node.rsv_disk_mb }
            allocation_count := some allocs.length
            running_allocations := some acc.running
            cpu := some { percent := acc.cpu }
            memory := some { usage := acc.mem, rss := acc.mem }
            disk := some
              { read_bytes := acc.dread
                write_bytes := acc.dwrite
                total_bytes := acc.dread + acc.dwrite
                read_ops := 0
                write_ops := 0 } }
        (metrics, hist ++ [metrics.toSnap])

/-! ## collect_continuous_metrics (metrics.py lines 339-387) -/

/-- One iteration of the sampling loop: the `if/elif` dispatch on
`target_type` (metrics.py lines 363-380).  The environment is indexed
by the iteration number, since the external world may change between
samples. -/
def sampleStep (client : Option (Nat → NomadEnv)) (target_type : String)
    (target_id : String) (i : Nat) (lbl : String) (hist : List Snapshot) :
    Snapshot × List Snapshot :=
  let cl : Option NomadEnv := client.map (fun f => f i)
  if target_type = "allocation" then
    let r := collect_nomad_allocation_metrics cl hist target_id lbl
    (r.1.toSnap, r.2)
  else if target_type = "job" then
    collect_nomad_job_metrics cl hist target_id lbl
  else if target_type = "node" then
    let r := collect_node_metrics cl hist target_id lbl
    (r.1.toSnap, r.2)
  else
    (({ error := some ("Unknown target type: " ++ target_type) } :
      AllocSnapshot).toSnap, hist)

/-- Body of the sampling loop of `collect_continuous_metrics`
(metrics.py lines 363-385): sample, append, and sleep unless this was
the last iteration. -/
def continuousStep (client : Option (Nat → NomadEnv))
    (target_type target_id lbl : String) (iterations : Nat)
    (acc : List Snapshot × List Snapshot × Nat) (i : Nat) :
    List Snapshot × List Snapshot × Nat :=
  let r := sampleStep client target_type target_id i
    (lbl ++ "_" ++ toString i) acc.2.1
  (acc.1 ++ [r.1], r.2,
    if i < iterations - 1 then acc.2.2 + 1 else acc.2.2)

/-- The `MetricsCollector.collect_continuous_metrics` (metrics.py lines
339-387).  Returns the snapshot list, the updated history, and the
number of `time.sleep(interval_seconds)` calls performed.  Requires a
positive interval to be meaningful: Python raises `ZeroDivisionError`
on `interval_seconds = 0`. -/
def collect_continuous_metrics (client : Option (Nat → NomadEnv))
    (hist : List Snapshot) (target_type target_id : String)
    (duration_seconds interval_seconds : Nat) (lbl : String) :
    List Snapshot × List Snapshot × Nat :=
  let iterations := duration_seconds / interval_seconds
  (List.range iterations).foldl
    (continuousStep client target_type target_id lbl iterations)
    ([], hist, 0)

/-- State of a `MetricsCollector` object: its mutable
`metrics_history` list. -/
structure CollectorState where
  metrics_history : List Snapshot := []
deriving DecidableEq

/-- The `compare_metrics` as the method on the collector object: its body
references no `self` state, so the explicit-state embedding returns
the state unchanged. -/
def compare_metrics_method (c : CollectorState) (before : Snapshot)
    (during : List Snapshot) (after : Snapshot) :
    Comparison × CollectorState :=
  (compare_metrics before during after, c)

/-! ## enumerate_targets: the allocation index (nomad.py lines 108-122) -/

/-- An entry of `NomadClient.list_allocations` (nomad.py lines 76-88). -/
structure NAlloc where
  id : Option String := none
  name : Option String := none
  jobID : Option String := none
  nodeID : Option String := none
  clientStatus : Option String := none
deriving DecidableEq

/-- The allocation-index construction of `NomadClient.enumerate_targets`
(nomad.py lines 114-122), verbatim:

    allocation_index = \x7b\x7d
    for alloc in allocations:
        job_id = alloc.get("JobID")
        if job_id and job_id not in allocation_index:
            # Prefer running allocations
            if alloc.get("ClientStatus", "").lower() == "running":
                allocation_index[job_id] = alloc
            elif job_id not in allocation_index:
                allocation_index[job_id] = alloc

The dictionary is an association list; insertions only ever happen at
absent keys, so `List.lookup` agrees with the Python dictionary. -/
def buildAllocationIndex (allocations : List NAlloc) :
    List (String × NAlloc) :=
  allocations.foldl
    (fun idx alloc =>
      match alloc.jobID with
      | none => idx
      | some job_id =>
        if job_id ≠ "" ∧ (idx.lookup job_id).isNone then
          if pyLower (alloc.clientStatus.getD "") = "running" then
            idx ++ [(job_id, alloc)]
          else if (idx.lookup job_id).isNone then
            idx ++ [(job_id, alloc)]
          else idx
        else idx)
    []

/-! ## Orchestrator: target selection (orchestrator.py lines 409-428) -/

/-- The `models.Target`: attribute values are modelled as strings, the only
attribute type the selection logic reads. -/
structure Target where
  identifier : String
  kind : String
  attributes : List (String × String) := []
deriving DecidableEq

/-- The `ChaosOrchestrator._select_target` (orchestrator.py lines 409-418):
for a truthy `target_id`, the first candidate matching by exact
identifier or by `name` attribute; raises when none matches; for a
falsy `target_id`, the first catalog entry if any. -/
def select_target (target_id : Option String) (targets : List Target) :
    Except String (Option Target) :=
  if pyTruthy target_id then
    let tid := target_id.getD ""
    match targets.find? (fun c =>
        c.identifier = tid ∨ c.attributes.lookup "name" = some tid) with
    | some c => Except.ok (some c)
    | none => Except.error ("Target " ++ tid ++ " not found in catalog")
  else
    Except.ok targets.head?

/-- The `ChaosOrchestrator._select_multiple_targets` (orchestrator.py lines
420-428): for each listed id, the inner `for`/`break` appends the first
candidate with that exact identifier, if any. -/
def select_multiple_targets (target_ids : List String)
    (targets : List Target) : List Target :=
  target_ids.foldl
    (fun selected tid =>
      match targets.find? (fun c => c.identifier = tid) with
      | some c => selected ++ [c]
      | none => selected)
    []

/-- The target-selection part of `ChaosOrchestrator.run_experiment`
(orchestrator.py lines 195-226): a comma in a truthy `target_id` takes
the multi-target path (split on commas, strip, exact-id selection,
error when nothing matched); otherwise the single-target path. -/
def run_experiment_select (target_id : Option String)
    (targets : List Target) : Except String (List Target) :=
  if pyTruthy target_id ∧ pyHasChar (target_id.getD "") ',' then
    let tid := target_id.getD ""
    let target_ids := (tid.splitOn ",").map String.trim
    let selected := select_multiple_targets target_ids targets
    if selected = [] then
      Except.error ("None of the specified targets found: " ++ tid)
    else Except.ok selected
  else
    (select_target target_id targets).map
      (fun o => match o with | some t => [t] | none => [])

/-! ## Orchestrator: the single-experiment pipeline
(orchestrator.py lines 239-348 and 430-439) -/

/-- Environment of one `_run_single_experiment` call: what
`_collect_target_metrics` would return for the two labelled captures,
what the during-phase sampler would return, and the chaoslib runner
(`none` when the `run_experiment` import is unavailable; otherwise the
optional `"status"` key of the dictionary it returns). -/
structure OrchEnv where
  collect_before : Option Snapshot := none
  collect_during : List Snapshot := []
  collect_after : Option Snapshot := none
  chaoslib : Option (Option String) := none

/-- The `ChaosOrchestrator._execute_experiment_document` (orchestrator.py
lines 430-439): the result's `"status"` key plus whether the chaos
experiment was actually executed. -/
def execute_experiment_document (chaoslib : Option (Option String))
    (dry_run : Bool) : (Option String) × Bool :=
  if dry_run ∨ chaoslib.isNone then (some "skipped", false)
  else (chaoslib.getD none, true)

/-- The observable outcome of `_run_single_experiment`: the recorded
snapshots, the comparison, the run status, whether the disruption ran,
and whether the persisted report carries a `metrics` section
(`_write_run_artifacts`, orchestrator.py lines 455-457). -/
structure RunOutcome where
  before_metrics : Option Snapshot
  during_metrics : List Snapshot
  after_metrics : Option Snapshot
  metrics_comparison : Option Comparison
  status : String
  disruption_executed : Bool
  report_has_metrics : Bool
deriving DecidableEq

/-- The metrics/execution skeleton of
`ChaosOrchestrator._run_single_experiment` (orchestrator.py lines
263-348).  Every collection phase is gated by
`collect_metrics and not dry_run and target`; the comparison
additionally by `before_metrics and after_metrics` (dictionary
truthiness, i.e. the snapshots are not `None`); `status` is
`"dry-run"` when `dry_run` else the execution output's status
defaulted to `"completed"`. -/
def run_single_experiment (env : OrchEnv) (dry_run collect_metrics : Bool)
    (target : Option Target) : RunOutcome :=
  let gate := collect_metrics ∧ ¬ dry_run ∧ target.isSome
  let before_metrics := if gate then env.collect_before else none
  let execd := execute_experiment_document env.chaoslib dry_run
  let during_metrics := if gate then env.collect_during else []
  let after_metrics := if gate then env.collect_after else none
  let metrics_comparison :=
    if gate then
      match before_metrics, after_metrics with
      | some b, some a => some (compare_metrics b during_metrics a)
      | _, _ => none
    else none
  { before_metrics := before_metrics
    during_metrics := during_metrics
    after_metrics := after_metrics
    metrics_comparison := metrics_comparison
    status := if dry_run then "dry-run" else (execd.1.getD "completed")
    disruption_executed := execd.2
    report_has_metrics := metrics_comparison.isSome }

/-! ## Spec-side definitions

These follow the specification's wording and are compared with the
embedded code. -/

/-- Modelled from the spec: `recovered = |after.memory.usage -
before.memory.usage| < 0.10 * before.memory.usage`. -/
def spec_memory_recovered (b a : ℚ) : Bool :=
  decide (|a - b| < (1/10) * b)

/-- Modelled from the spec: cpu recovered within 5 absolute percentage
points. -/
def spec_cpu_recovered (b a : ℚ) : Bool :=
  decide (|a - b| < 5)

/-- Whether an `Except` value is an error (a raised `ValueError`). -/
def isError {ε α : Type} (e : Except ε α) : Bool :=
  match e with
  | Except.error _ => true
  | Except.ok _ => false

/-! ## Concrete fixtures used by witnesses and counterexamples -/

/-- A Nomad environment whose allocation lookup raises. -/
def envBoom : NomadEnv :=
  { now := "t0", get_allocation := fun _ => Except.error "boom" }

/-- A healthy Nomad environment for one allocation. -/
def envOk : NomadEnv :=
  { now := "t1"
    get_allocation := fun _ => Except.ok
      { name := some "web.0", job_id := some "web",
        client_status := some "running" }
    get_allocation_stats := fun _ => Except.ok
      { cpu_percent := 20, mem_usage := 1000 } }

/-- A sampler environment that is healthy except at iteration 2
(the third sample), where the stats call raises. -/
def envSeq : Nat → NomadEnv := fun i =>
  if i = 2 then envBoom else envOk

/-- A baseline snapshot carrying an `error` field (collector failure
shape: no metric families present). -/
def errBeforeW : Snapshot :=
  { timestamp := some "t0", label := some "before",
    allocation_id := some "a1", error := some "backend down" }

/-- A healthy post snapshot. -/
def afterW : Snapshot :=
  { label := some "after", client_status := some "running",
    cpu := some { percent := 20 }, memory := some { usage := 1000 },
    disk := some { read_bytes := 100, total_bytes := 100 } }

/-- A healthy baseline snapshot. -/
def beforeW : Snapshot :=
  { label := some "before", client_status := some "running",
    cpu := some { percent := 20 }, memory := some { usage := 1000 },
    disk := some { read_bytes := 100, total_bytes := 100 } }

/-- Orchestrator environment whose baseline capture failed (error
snapshot) while the post capture succeeded. -/
def envErrBaseline : OrchEnv :=
  { collect_before := some errBeforeW
    collect_after := some afterW
    chaoslib := some (some "completed") }

/-- A service target fixture. -/
def tgtW : Target :=
  { identifier := "web", kind := "service",
    attributes := [("name", "frontend")] }

/-- A node target fixture whose `name` attribute differs from its
identifier. -/
def tgtNode : Target :=
  { identifier := "node-1a2b3c4d", kind := "node",
    attributes := [("name", "client-01")] }

/-- Target catalog fixture. -/
def catalogW : List Target := [tgtW, tgtNode]

/-- A non-running allocation listed before a running one for the same
job id. -/
def allocPending : NAlloc :=
  { id := some "a1", jobID := some "web", clientStatus := some "pending" }

/-- The running allocation for the same job id, listed second. -/
def allocRunning : NAlloc :=
  { id := some "a2", jobID := some "web", clientStatus := some "running" }

end ChaosMonkey

namespace ChaosMonkey

/-! ## Theorems -/

/-- Claim C3, as stated, is false: with `before.memory.usage = 0` and
`after.memory.usage = 0` (exact zero match) the memory analysis
reports `recovered = false`, because the strict bound
`|0 - 0| < 0 * 0.1` fails. -/
theorem C3_memory_zero_baseline_counterexample :
    ((compare_metrics { memory := some { usage := 0 } } []
        { memory := some { usage := 0 } }).analysis.memory).map
      (fun m => m.recovered) = some false := by
  simp only [compare_metrics]
  norm_num

/-- Claim C3 (amended): whenever `before.memory.usage = 0`, the memory
analysis reports `recovered = false` for every after value — including
an exact zero match — since `|after - 0| < 0 * 0.1` is unsatisfiable. -/
theorem C3_memory_zero_baseline_never_recovers
    (bs as : Snapshot) (d : List Snapshot) (m m' : MemoryStats)
    (hb : bs.memory = some m) (ha : as.memory = some m')
    (hm : m.usage = 0) :
    ((compare_metrics bs d as).analysis.memory).map
      (fun x => x.recovered) = some false := by
  simp only [compare_metrics, hb, ha, hm]
  simp [abs_nonneg, not_lt]

/-- Witness for C3 (amended) at `before.usage = 0`, `after.usage = 42`. -/
theorem C3_memory_zero_baseline_never_recovers_witness :
    (({ memory := some { usage := 0 } } : Snapshot).memory
        = some ({ usage := 0 } : MemoryStats)) ∧
    ((compare_metrics { memory := some { usage := 0 } } []
        { memory := some { usage := 42 } }).analysis.memory).map
      (fun x => x.recovered) = some false :=
  ⟨rfl, C3_memory_zero_baseline_never_recovers
    { memory := some { usage := 0 } } { memory := some { usage := 42 } }
    [] { usage := 0 } { usage := 42 } rfl rfl rfl⟩

/-- Claim C7: when both snapshots carry the family, memory recovery is
the relative 10 percent band `|after - before| < 0.10 * before` and
cpu recovery the absolute 5-point band `|after - before| < 5`,
exactly as the spec formulas state them. -/
theorem C7_recovery_thresholds
    (bs as : Snapshot) (d : List Snapshot)
    (mb ma : MemoryStats) (cb ca : CpuStats)
    (hmb : bs.memory = some mb) (hma : as.memory = some ma)
    (hcb : bs.cpu = some cb) (hca : as.cpu = some ca) :
    ((compare_metrics bs d as).analysis.memory).map (fun x => x.recovered)
      = some (spec_memory_recovered mb.usage ma.usage) ∧
    ((compare_metrics bs d as).analysis.cpu).map (fun x => x.recovered)
      = some (spec_cpu_recovered cb.percent ca.percent) := by
  constructor
  · simp only [compare_metrics, hmb, hma, spec_memory_recovered]
    simp [mul_comm]
  · simp only [compare_metrics, hcb, hca, spec_cpu_recovered]
    simp

/-- Witness for C7 at the spec's boundary figures: memory 1000 → 1099
recovers (9.9 percent), cpu 20 → 24.9 recovers; and concretely
1000 → 1101 and 20 → 25.1 do not. -/
theorem C7_recovery_thresholds_witness :
    (((compare_metrics
        { memory := some { usage := 1000 }, cpu := some { percent := 20 } }
        []
        { memory := some { usage := 1099 }, cpu := some { percent := (249/10) } }
      ).analysis.memory).map (fun x => x.recovered)
        = some (spec_memory_recovered 1000 1099) ∧
     ((compare_metrics
        { memory := some { usage := 1000 }, cpu := some { percent := 20 } }
        []
        { memory := some { usage := 1099 }, cpu := some { percent := (249/10) } }
      ).analysis.cpu).map (fun x => x.recovered)
        = some (spec_cpu_recovered 20 (249/10))) ∧
    spec_memory_recovered 1000 1099 = true ∧
    spec_memory_recovered 1000 1101 = false ∧
    spec_cpu_recovered 20 (249/10) = true ∧
    spec_cpu_recovered 20 (251/10) = false :=
  ⟨C7_recovery_thresholds
      { memory := some { usage := 1000 }, cpu := some { percent := 20 } }
      { memory := some { usage := 1099 }, cpu := some { percent := (249/10) } }
      [] { usage := 1000 } { usage := 1099 }
      { percent := 20 } { percent := (249/10) } rfl rfl rfl rfl,
    by norm_num [spec_memory_recovered], by norm_num [spec_memory_recovered],
    by norm_num [spec_cpu_recovered, abs_lt],
    by norm_num [spec_cpu_recovered, abs_lt]⟩

/-- Claim C6: when the during-series contributes no disk candidates,
every disk peak falls back to the corresponding before value, all
three increases are exactly 0, the op counts are echoed, and the disk
analysis carries no recovered classification (the `DiskAnalysis`
record has no such field). -/
theorem C6_disk_peak_fallback
    (bs as : Snapshot) (d : List Snapshot) (bd ad : DiskStats)
    (hb : bs.disk = some bd) (ha : as.disk = some ad)
    (hd : d.filter (fun s => s.disk.isSome) = []) :
    (compare_metrics bs d as).analysis.disk = some
      { before_read_bytes := bd.read_bytes
        before_write_bytes := bd.write_bytes
        before_total_bytes := bd.total_bytes
        peak_read_bytes := bd.read_bytes
        peak_write_bytes := bd.write_bytes
        peak_total_bytes := bd.total_bytes
        after_read_bytes := ad.read_bytes
        after_write_bytes := ad.write_bytes
        after_total_bytes := ad.total_bytes
        read_increase := 0
        write_increase := 0
        total_increase := 0
        read_ops_before := bd.read_ops
        write_ops_before := bd.write_ops
        read_ops_after := ad.read_ops
        write_ops_after := ad.write_ops } := by
  simp only [compare_metrics, hb, ha, hd]
  simp [pyMax]

/-- Witness for C6 with `before.disk.read_bytes = 100` and an empty
during list, as in the spec's example. -/
theorem C6_disk_peak_fallback_witness :
    (compare_metrics
        { disk := some { read_bytes := 100, total_bytes := 100 } } []
        { disk := some { read_bytes := 7, total_bytes := 7 } }
      ).analysis.disk = some
      { before_read_bytes := 100
        before_write_bytes := 0
        before_total_bytes := 100
        peak_read_bytes := 100
        peak_write_bytes := 0
        peak_total_bytes := 100
        after_read_bytes := 7
        after_write_bytes := 0
        after_total_bytes := 7
        read_increase := 0
        write_increase := 0
        total_increase := 0
        read_ops_before := 0
        write_ops_before := 0
        read_ops_after := 0
        write_ops_after := 0 } :=
  C6_disk_peak_fallback
    { disk := some { read_bytes := 100, total_bytes := 100 } }
    { disk := some { read_bytes := 7, total_bytes := 7 } } []
    { read_bytes := 100, total_bytes := 100 }
    { read_bytes := 7, total_bytes := 7 } rfl rfl rfl

/-- Claim C9: the comparison is deterministic and pure — as the method
on the collector object it yields the same report for any collector
state, twice in a row, and leaves the `metrics_history` state
untouched. -/
theorem C9_compare_deterministic_pure
    (c c' : CollectorState) (b : Snapshot) (d : List Snapshot)
    (a : Snapshot) :
    (compare_metrics_method c b d a).1 = (compare_metrics_method c' b d a).1 ∧
    (compare_metrics_method c b d a).2 = c ∧
    compare_metrics b d a = (compare_metrics_method
      (compare_metrics_method c b d a).2 b d a).1 :=
  ⟨rfl, rfl, rfl⟩

/-! ### Sampler lemmas: snapshots do not depend on the history they
are appended to -/

/-- The allocation snapshot returned does not depend on the incoming
history. -/
theorem collect_alloc_fst_hist (cl : Option NomadEnv)
    (h h' : List Snapshot) (aid lbl : String) :
    (collect_nomad_allocation_metrics cl h aid lbl).1
      = (collect_nomad_allocation_metrics cl h' aid lbl).1 := by
  cases cl with
  | none => rfl
  | some env =>
    simp only [collect_nomad_allocation_metrics]
    cases env.get_allocation aid with
    | error e => rfl
    | ok alloc =>
      cases env.get_allocation_stats aid with
      | error e => rfl
      | ok stats => rfl

/-- The node snapshot returned does not depend on the incoming
history. -/
theorem collect_node_fst_hist (cl : Option NomadEnv)
    (h h' : List Snapshot) (nid lbl : String) :
    (collect_node_metrics cl h nid lbl).1
      = (collect_node_metrics cl h' nid lbl).1 := by
  cases cl with
  | none => rfl
  | some env =>
    simp only [collect_node_metrics]
    cases env.get_node nid with
    | error e => rfl
    | ok node =>
      cases env.get_node_allocations nid with
      | error e => rfl
      | ok allocs => rfl

/-- The collected-allocations component of the job loop does not
depend on the incoming history. -/
theorem job_fold_fst (env : NomadEnv) (lbl : String) :
    ∀ (allocs : List RawAllocEntry) (acc1 : List AllocSnapshot)
      (h h' : List Snapshot),
      (allocs.foldl (jobCollectStep env lbl) (acc1, h)).1
        = (allocs.foldl (jobCollectStep env lbl) (acc1, h')).1 := by
  intro allocs
  induction allocs with
  | nil => intro acc1 h h'; rfl
  | cons a rest ih =>
    intro acc1 h h'
    simp only [List.foldl_cons, jobCollectStep]
    by_cases hp : pyTruthy a.id
    · simp only [hp, if_true]
      rw [collect_alloc_fst_hist (some env) h h' (a.id.getD "") lbl]
      exact ih _ _ _
    · simp only [hp, if_false]
      exact ih _ _ _

/-- The job snapshot returned does not depend on the incoming
history. -/
theorem collect_job_fst_hist (cl : Option NomadEnv)
    (h h' : List Snapshot) (jid lbl : String) :
    (collect_nomad_job_metrics cl h jid lbl).1
      = (collect_nomad_job_metrics cl h' jid lbl).1 := by
  cases cl with
  | none => rfl
  | some env =>
    simp only [collect_nomad_job_metrics]
    cases env.get_job_allocations jid with
    | error e => rfl
    | ok allocs =>
      dsimp only
      rw [job_fold_fst env lbl allocs [] h h']

/-- One sampling step yields the same snapshot for any incoming
history. -/
theorem sampleStep_fst_hist (client : Option (Nat → NomadEnv))
    (tt tid : String) (i : Nat) (lbl : String) (h h' : List Snapshot) :
    (sampleStep client tt tid i lbl h).1
      = (sampleStep client tt tid i lbl h').1 := by
  by_cases h1 : tt = "allocation"
  · subst h1
    exact congrArg AllocSnapshot.toSnap
      (collect_alloc_fst_hist (client.map fun f => f i) h h' tid lbl)
  · by_cases h2 : tt = "job"
    · subst h2
      exact collect_job_fst_hist (client.map fun f => f i) h h' tid lbl
    · by_cases h3 : tt = "node"
      · subst h3
        exact congrArg AllocSnapshot.toSnap
          (collect_node_fst_hist (client.map fun f => f i) h h' tid lbl)
      · simp only [sampleStep, if_neg h1, if_neg h2, if_neg h3]

/-- The snapshot list accumulated by the sampling loop is a `map` over
the iteration indices. -/
theorem continuous_fold_fst (client : Option (Nat → NomadEnv))
    (tt tid lbl : String) (iters : Nat) :
    ∀ (l : List Nat) (s0 : List Snapshot) (h0 : List Snapshot) (k0 : Nat),
      (l.foldl (continuousStep client tt tid lbl iters) (s0, h0, k0)).1
        = s0 ++ l.map (fun i =>
            (sampleStep client tt tid i (lbl ++ "_" ++ toString i) []).1) := by
  intro l
  induction l with
  | nil => intro s0 h0 k0; simp
  | cons i rest ih =>
    intro s0 h0 k0
    simp only [List.foldl_cons, continuousStep, List.map_cons]
    rw [ih, sampleStep_fst_hist client tt tid i (lbl ++ "_" ++ toString i) h0 []]
    simp

/-- The sleep counter accumulated by the sampling loop counts the
iterations strictly before the last one. -/
theorem continuous_fold_sleeps (client : Option (Nat → NomadEnv))
    (tt tid lbl : String) (iters : Nat) :
    ∀ (l : List Nat) (s0 : List Snapshot) (h0 : List Snapshot) (k0 : Nat),
      (l.foldl (continuousStep client tt tid lbl iters) (s0, h0, k0)).2.2
        = k0 + l.countP (fun i => decide (i < iters - 1)) := by
  intro l
  induction l with
  | nil => intro s0 h0 k0; simp
  | cons i rest ih =>
    intro s0 h0 k0
    simp only [List.foldl_cons, continuousStep, List.countP_cons]
    rw [ih]
    by_cases hi : i < iters - 1
    · simp [hi]; omega
    · simp [hi]

/-- Counting the elements of `range n` below `k`. -/
theorem countP_range_lt (k : Nat) :
    ∀ n : Nat, (List.range n).countP (fun i => decide (i < k)) = min k n := by
  intro n
  induction n with
  | zero => simp
  | succ m ih =>
    rw [List.range_succ, List.countP_append, ih]
    by_cases hm : m < k
    · simp [hm]; omega
    · simp [hm]; omega

/-- For a present client and a known target type, every sampling step
labels its snapshot with the label it was given. -/
theorem sampleStep_label (f : Nat → NomadEnv) (tt tid : String) (i : Nat)
    (lbl : String)
    (htt : tt = "allocation" ∨ tt = "job" ∨ tt = "node") :
    ((sampleStep (some f) tt tid i lbl []).1).label = some lbl := by
  rcases htt with h | h | h <;> subst h
  · simp only [sampleStep, if_true]
    simp only [collect_nomad_allocation_metrics, Option.map_some']
    cases (f i).get_allocation tid with
    | error e => rfl
    | ok alloc =>
      cases (f i).get_allocation_stats tid with
      | error e => rfl
      | ok stats => rfl
  · simp only [sampleStep, if_neg (by decide : ¬ ("job" = "allocation")), if_true]
    simp only [collect_nomad_job_metrics, Option.map_some']
    cases (f i).get_job_allocations tid with
    | error e => rfl
    | ok allocs => rfl
  · simp only [sampleStep, if_neg (by decide : ¬ ("node" = "allocation")),
      if_neg (by decide : ¬ ("node" = "job")), if_true]
    simp only [collect_node_metrics, Option.map_some']
    cases (f i).get_node tid with
    | error e => rfl
    | ok node =>
      cases (f i).get_node_allocations tid with
      | error e => rfl
      | ok allocs => rfl

/-- Claim C4: for a positive interval the sampler takes exactly
`duration / interval` (integer division) snapshots, sleeps exactly
`iterations - 1` times, labels snapshot `i` with
`label_prefix ++ "_" ++ i` (for a working client and a known target
type), and a collector error at any iteration is recorded as an
`error`-carrying snapshot at that position while the loop still
produces the full count. -/
theorem C4_sampler_duration_law (client : Option (Nat → NomadEnv))
    (hist : List Snapshot) (tt tid lbl : String) (d iv : Nat)
    (hiv : 0 < iv) :
    ((collect_continuous_metrics client hist tt tid d iv lbl).1.length
      = d / iv) ∧
    ((collect_continuous_metrics client hist tt tid d iv lbl).2.2
      = d / iv - 1) ∧
    (∀ f, client = some f →
      (tt = "allocation" ∨ tt = "job" ∨ tt = "node") →
      (collect_continuous_metrics client hist tt tid d iv lbl).1.map
          (fun s => s.label)
        = (List.range (d / iv)).map
            (fun i => some (lbl ++ "_" ++ toString i))) ∧
    (∀ f i e, client = some f → tt = "allocation" → i < d / iv →
      (f i).get_allocation tid = Except.error e →
      ((collect_continuous_metrics client hist tt tid d iv lbl).1.get? i).map
        (fun s => s.error) = some (some e)) := by
  refine ⟨?_, ?_, ?_, ?_⟩
  · rw [collect_continuous_metrics,
      continuous_fold_fst client tt tid lbl (d / iv) (List.range (d / iv)) [] hist 0]
    simp
  · rw [collect_continuous_metrics,
      continuous_fold_sleeps client tt tid lbl (d / iv) (List.range (d / iv)) [] hist 0]
    rw [countP_range_lt]
    generalize d / iv = n
    omega
  · intro f hf htt
    subst hf
    rw [collect_continuous_metrics,
      continuous_fold_fst (some f) tt tid lbl (d / iv) (List.range (d / iv)) [] hist 0]
    simp only [List.nil_append, List.map_map]
    refine List.map_congr_left ?_
    intro i _
    simp only [Function.comp]
    exact sampleStep_label f tt tid i (lbl ++ "_" ++ toString i) htt
  · intro f i e hf htt hi herr
    subst hf; subst htt
    rw [collect_continuous_metrics,
      continuous_fold_fst (some f) "allocation" tid lbl (d / iv)
        (List.range (d / iv)) [] hist 0]
    simp only [List.nil_append, List.get?_map,
      List.get?_range hi, Option.map_some']
    simp [sampleStep, collect_nomad_allocation_metrics, herr,
      AllocSnapshot.toSnap]

/-- Witness for C4 with the spec's figures: duration 10, interval 2
gives 5 snapshots and 4 sleeps; the environment fails at iteration 2,
and that snapshot carries `error = "boom"`. -/
theorem C4_sampler_duration_law_witness :
    0 < 2 ∧
    ((collect_continuous_metrics (some envSeq) [] "allocation" "a1" 10 2
        "during").1.length = 10 / 2) ∧
    ((collect_continuous_metrics (some envSeq) [] "allocation" "a1" 10 2
        "during").2.2 = 10 / 2 - 1) ∧
    ((collect_continuous_metrics (some envSeq) [] "allocation" "a1" 10 2
        "during").1.map (fun s => s.label)
      = (List.range (10 / 2)).map
          (fun i => some ("during" ++ "_" ++ toString i))) ∧
    (((collect_continuous_metrics (some envSeq) [] "allocation" "a1" 10 2
        "during").1.get? 2).map (fun s => s.error) = some (some "boom")) :=
  ⟨by decide,
   (C4_sampler_duration_law (some envSeq) [] "allocation" "a1" "during"
     10 2 (by decide)).1,
   (C4_sampler_duration_law (some envSeq) [] "allocation" "a1" "during"
     10 2 (by decide)).2.1,
   (C4_sampler_duration_law (some envSeq) [] "allocation" "a1" "during"
     10 2 (by decide)).2.2.1 envSeq rfl (Or.inl rfl),
   (C4_sampler_duration_law (some envSeq) [] "allocation" "a1" "during"
     10 2 (by decide)).2.2.2 envSeq 2 "boom" rfl rfl (by decide) rfl⟩

/-- Claim C5, as stated, is false: the error snapshot produced when
the allocation lookup raises carries no `cpu`, `memory` or `disk`
keys at all — in particular `cpu` is not the zero-valued record the
claim asserts it to be. -/
theorem C5_error_snapshot_counterexample :
    ((collect_nomad_allocation_metrics (some envBoom) [] "a1"
        "before").1.error = some "boom") ∧
    ((collect_nomad_allocation_metrics (some envBoom) [] "a1"
        "before").1.cpu = none) ∧
    ((collect_nomad_allocation_metrics (some envBoom) [] "a1"
        "before").1.memory = none) ∧
    ((collect_nomad_allocation_metrics (some envBoom) [] "a1"
        "before").1.disk = none) ∧
    ((collect_nomad_allocation_metrics (some envBoom) [] "a1"
        "before").1.cpu ≠ some ({} : CpuStats)) :=
  ⟨rfl, rfl, rfl, rfl, by decide⟩

/-- Claim C5 (amended): every snapshot produced by the collectors that
carries an `error` field omits the numeric metric families entirely —
`cpu`, `memory`, `disk` and `tasks` are absent, not zero-valued — so
callers must branch on `error` presence. -/
theorem C5_error_snapshot_shape (cl : Option NomadEnv)
    (h : List Snapshot) (aid jid nid lbl : String) :
    ((collect_nomad_allocation_metrics cl h aid lbl).1.error.isSome = true →
      (collect_nomad_allocation_metrics cl h aid lbl).1.cpu = none ∧
      (collect_nomad_allocation_metrics cl h aid lbl).1.memory = none ∧
      (collect_nomad_allocation_metrics cl h aid lbl).1.disk = none ∧
      (collect_nomad_allocation_metrics cl h aid lbl).1.tasks = none) ∧
    ((collect_node_metrics cl h nid lbl).1.error.isSome = true →
      (collect_node_metrics cl h nid lbl).1.cpu = none ∧
      (collect_node_metrics cl h nid lbl).1.memory = none ∧
      (collect_node_metrics cl h nid lbl).1.disk = none ∧
      (collect_node_metrics cl h nid lbl).1.tasks = none) ∧
    ((collect_nomad_job_metrics cl h jid lbl).1.error.isSome = true →
      (collect_nomad_job_metrics cl h jid lbl).1.cpu = none ∧
      (collect_nomad_job_metrics cl h jid lbl).1.memory = none ∧
      (collect_nomad_job_metrics cl h jid lbl).1.disk = none ∧
      (collect_nomad_job_metrics cl h jid lbl).1.allocations = none ∧
      (collect_nomad_job_metrics cl h jid lbl).1.aggregate = none) := by
  refine ⟨?_, ?_, ?_⟩
  · cases cl with
    | none => intro _; exact ⟨rfl, rfl, rfl, rfl⟩
    | some env =>
      simp only [collect_nomad_allocation_metrics]
      cases env.get_allocation aid with
      | error e => intro _; exact ⟨rfl, rfl, rfl, rfl⟩
      | ok alloc =>
        cases env.get_allocation_stats aid with
        | error e => intro _; exact ⟨rfl, rfl, rfl, rfl⟩
        | ok stats => intro hc; simp at hc
  · cases cl with
    | none => intro _; exact ⟨rfl, rfl, rfl, rfl⟩
    | some env =>
      simp only [collect_node_metrics]
      cases env.get_node nid with
      | error e => intro _; exact ⟨rfl, rfl, rfl, rfl⟩
      | ok node =>
        cases env.get_node_allocations nid with
        | error e => intro _; exact ⟨rfl, rfl, rfl, rfl⟩
        | ok allocs => intro hc; simp at hc
  · cases cl with
    | none => intro _; exact ⟨rfl, rfl, rfl, rfl, rfl⟩
    | some env =>
      simp only [collect_nomad_job_metrics]
      cases env.get_job_allocations jid with
      | error e => intro _; exact ⟨rfl, rfl, rfl, rfl, rfl⟩
      | ok allocs => intro hc; simp at hc

/-- Witness for C5 (amended) on the raising environment. -/
theorem C5_error_snapshot_shape_witness :
    (collect_nomad_allocation_metrics (some envBoom) [] "a1"
        "before").1.cpu = none ∧
    (collect_nomad_allocation_metrics (some envBoom) [] "a1"
        "before").1.memory = none ∧
    (collect_nomad_allocation_metrics (some envBoom) [] "a1"
        "before").1.disk = none ∧
    (collect_nomad_allocation_metrics (some envBoom) [] "a1"
        "before").1.tasks = none :=
  (C5_error_snapshot_shape (some envBoom) [] "a1" "j1" "n1" "before").1 rfl

/-- Claim C1 concerns a code bug: for job id `web` with a `pending`
allocation listed before a `running` one, the allocation index keeps
the `pending` allocation — the outer `job_id not in allocation_index`
guard skips every later allocation for an indexed job id, so the
`running` allocation never overwrites the non-running placeholder,
contrary to the code's own comments and the spec. -/
theorem C1_allocation_index_keeps_first_not_running :
    (buildAllocationIndex [allocPending, allocRunning]).lookup "web"
      = some allocPending ∧
    allocPending.clientStatus = some "pending" ∧
    allocRunning.clientStatus = some "running" ∧
    allocRunning.jobID = allocPending.jobID := by
  refine ⟨?_, rfl, rfl, rfl⟩
  decide

/-- Claim C2, as stated, is false: with a baseline snapshot that
carries an `error` field (and a healthy post snapshot), the comparison
is still computed and the persisted result still carries the metrics
section — the gate only checks that the two snapshots are not `None`,
not that they are error-free. -/
theorem C2_error_snapshot_does_not_gate_comparison :
    (run_single_experiment envErrBaseline false true (some tgtW)).before_metrics
      = some errBeforeW ∧
    errBeforeW.error = some "backend down" ∧
    (run_single_experiment envErrBaseline false true (some tgtW)).metrics_comparison.isSome
      = true ∧
    (run_single_experiment envErrBaseline false true (some tgtW)).report_has_metrics
      = true :=
  ⟨rfl, rfl, rfl, rfl⟩

/-- Claim C2 (amended): with metrics collection enabled and not in
dry-run mode, the comparison is computed if and only if both the
baseline and the post snapshot exist (are not `None`) — an `error`
field on a snapshot does not suppress it; the persisted result
carries the metrics section exactly when the comparison was computed;
and when the baseline snapshot carries no metric families (the shape
of every collector error snapshot) the computed analysis is empty, so
no per-family analysis is reported and nothing fails. -/
theorem C2_comparison_gating
    (env : OrchEnv) (dr cm : Bool) (tgt : Option Target) :
    ((run_single_experiment env dr cm tgt).metrics_comparison.isSome
      = (cm && !dr && tgt.isSome
          && env.collect_before.isSome && env.collect_after.isSome)) ∧
    ((run_single_experiment env dr cm tgt).report_has_metrics
      = (run_single_experiment env dr cm tgt).metrics_comparison.isSome) ∧
    (∀ b, env.collect_before = some b → b.cpu = none → b.memory = none →
      b.client_status = none → b.disk = none →
      ∀ c, (run_single_experiment env dr cm tgt).metrics_comparison = some c →
        c.analysis = {}) := by
  refine ⟨?_, rfl, ?_⟩
  · cases dr <;> cases cm <;> cases tgt <;>
      cases hb : env.collect_before <;> cases ha : env.collect_after <;>
      simp [run_single_experiment, hb, ha]
  · intro b hb hcpu hmem hcs hdisk c hc
    cases dr <;> cases cm <;> cases tgt <;>
        simp [run_single_experiment, hb] at hc <;>
        cases ha : env.collect_after <;> rw [ha] at hc <;>
        simp at hc <;>
        simp [← hc, compare_metrics, hcpu, hmem, hcs, hdisk]

/-- Witness for C2 (amended) on the concrete environment whose
baseline capture failed: the comparison is computed, persisted, and
its analysis is empty. -/
theorem C2_comparison_gating_witness :
    ((run_single_experiment envErrBaseline false true (some tgtW)).metrics_comparison.isSome
      = (true && !false && (some tgtW).isSome
          && envErrBaseline.collect_before.isSome
          && envErrBaseline.collect_after.isSome)) ∧
    (∀ c, (run_single_experiment envErrBaseline false true (some tgtW)).metrics_comparison
        = some c → c.analysis = {}) :=
  ⟨(C2_comparison_gating envErrBaseline false true (some tgtW)).1,
   fun c hc => (C2_comparison_gating envErrBaseline false true (some tgtW)).2.2
     errBeforeW rfl rfl rfl rfl rfl c hc⟩

/-- Claim C8: dry-run short-circuits everything — no baseline, during
or post snapshots, no comparison, no execution of the disruption, and
the run reports status `dry-run`. -/
theorem C8_dry_run_short_circuit
    (env : OrchEnv) (cm : Bool) (tgt : Option Target) :
    run_single_experiment env true cm tgt =
      { before_metrics := none
        during_metrics := []
        after_metrics := none
        metrics_comparison := none
        status := "dry-run"
        disruption_executed := false
        report_has_metrics := false } := by
  simp [run_single_experiment, execute_experiment_document]

/-- The inner loop of `_select_multiple_targets` appends, per listed
id, the first catalog entry with that exact identifier. -/
theorem select_multiple_targets_eq (ids : List String)
    (targets : List Target) :
    select_multiple_targets ids targets
      = ids.filterMap (fun tid => targets.find? (fun c => c.identifier = tid)) := by
  suffices h : ∀ (l : List String) (acc : List Target),
      l.foldl (fun selected tid =>
        match targets.find? (fun c => c.identifier = tid) with
        | some c => selected ++ [c]
        | none => selected) acc
      = acc ++ l.filterMap (fun tid => targets.find? (fun c => c.identifier = tid)) by
    simpa [select_multiple_targets] using h ids []
  intro l
  induction l with
  | nil => intro acc; simp
  | cons tid rest ih =>
    intro acc
    cases hfind : targets.find? (fun c => c.identifier = tid) with
    | none => simp [List.foldl_cons, hfind, ih]
    | some c => simp [List.foldl_cons, hfind, ih]

/-- Claim C10: multi-target selection matches each listed id only by
exact identifier against the catalog (first match wins, no
name-attribute fallback), silently skips ids with no match, and the
run fails exactly when no listed id matches any catalog entry. -/
theorem C10_multi_target_selection
    (ids : List String) (targets : List Target) (s : String) :
    (select_multiple_targets ids targets
      = ids.filterMap (fun tid => targets.find? (fun c => c.identifier = tid))) ∧
    (pyTruthy (some s) ∧ pyHasChar s ',' →
      (isError (run_experiment_select (some s) targets) = true ↔
        ∀ tid ∈ (s.splitOn ",").map String.trim,
          targets.find? (fun c => c.identifier = tid) = none)) := by
  refine ⟨select_multiple_targets_eq ids targets, ?_⟩
  intro h
  rw [run_experiment_select, if_pos (by simpa using h)]
  simp only [Option.getD_some, select_multiple_targets_eq]
  by_cases hnil : ((s.splitOn ",").map String.trim).filterMap
      (fun tid => targets.find? (fun c => c.identifier = tid)) = []
  · simp only [hnil, if_pos rfl, isError]
    simpa [List.filterMap_eq_nil_iff] using hnil
  · rw [if_neg hnil]
    simp only [isError]
    constructor
    · intro hfalse; cases hfalse
    · intro hall
      exact absurd (List.filterMap_eq_nil_iff.mpr hall) hnil

/-- Witness for C10: with catalog `[web, node-1a2b3c4d]` (the node's
`name` attribute is `client-01`), the listed ids `client-01,db` match
nothing — the name fallback does not apply in the multi-target path,
so the run fails — while the single-target path does resolve
`client-01` through the name attribute. -/
theorem C10_multi_target_selection_witness :
    (select_multiple_targets ["client-01", "db"] catalogW
      = (["client-01", "db"]).filterMap
        (fun tid => catalogW.find? (fun c => c.identifier = tid))) ∧
    (isError (run_experiment_select (some "client-01,db") catalogW) = true ↔
      ∀ tid ∈ (("client-01,db").splitOn ",").map String.trim,
        catalogW.find? (fun c => c.identifier = tid) = none) ∧
    select_multiple_targets ["client-01", "db"] catalogW = [] ∧
    select_target (some "client-01") catalogW = Except.ok (some tgtNode) :=
  ⟨(C10_multi_target_selection ["client-01", "db"] catalogW "client-01,db").1,
   (C10_multi_target_selection ["client-01", "db"] catalogW "client-01,db").2
     ⟨by decide, by decide⟩,
   by decide, rfl⟩

end ChaosMonkey
